import Mathlib

/-!
Verification of the evidence retrieval and citation-grounding engine
(`src/evidence/rag_system.py`).

Modelling conventions:
* Python `str` values are Lean `String`s; character-level operations
  (splitting, lowercasing, substring tests) are carried out on the
  underlying `List Char`, which matches CPython code-point semantics for
  the ASCII data this engine manipulates.
* Python `float` arithmetic is modelled by exact rationals (`ℚ`).
* Python dicts keyed by strings are association lists in insertion order;
  `dictGet` models `dict.get`.
* The external sentence-transformers encoder and the numpy cosine kernel
  are not part of the repository; they are modelled as parameters
  `encode : String → V` and `cosineSim : V → V → ℚ` over an abstract
  embedding type `V`.  Everything downstream of the raw cosine value
  (curated boost, dynamic threshold, sorting, fallback) is embedded
  concretely.
* `hashlib.md5` is implemented concretely (RFC 1321) so the cache-key
  derivation is executable end to end.
-/

/-- Python `dict.get`: first binding of the key in an insertion-ordered
association list. -/
def dictGet {β : Type} (d : List (String × β)) (k : String) : Option β :=
  (d.find? (fun p => p.1 == k)).map (fun p => p.2)

/-- Python `str.lower` restricted to ASCII (the engine only lowercases
ASCII configuration strings and queries); `Char.toLower` matches CPython
on ASCII characters. -/
def lowerL (l : List Char) : List Char := l.map Char.toLower

/-- One step of whitespace splitting; `acc` is the current word reversed. -/
def wsSplitAux (acc : List Char) : List Char → List (List Char)
  | [] => if acc.isEmpty then [] else [acc.reverse]
  | c :: cs =>
    if c.isWhitespace then
      if acc.isEmpty then wsSplitAux [] cs else acc.reverse :: wsSplitAux [] cs
    else wsSplitAux (c :: acc) cs

/-- Python `str.split()` with no separator: split on whitespace runs and
drop empty pieces. -/
def pySplit (l : List Char) : List (List Char) := wsSplitAux [] l

/-- Python `a.startswith(b)` on character lists (needle first). -/
def startsL : List Char → List Char → Bool
  | [], _ => true
  | _ :: _, [] => false
  | a :: as, b :: bs => a == b && startsL as bs

/-- Python `needle in hay` substring test on character lists. -/
def isSubL (needle : List Char) : List Char → Bool
  | [] => needle.isEmpty
  | c :: cs => startsL needle (c :: cs) || isSubL needle cs

/-- Python `content.split(". ")` specialised to the literal separator used
by the snippet extractor: greedy left-to-right non-overlapping splitting. -/
def splitDotSpace : List Char → List (List Char)
  | [] => [[]]
  | '.' :: ' ' :: rest => [] :: splitDotSpace rest
  | c :: rest =>
    match splitDotSpace rest with
    | [] => [[c]]
    | w :: ws => (c :: w) :: ws

/-- Python `" ".join(words)` on character lists. -/
def joinWords : List (List Char) → List Char
  | [] => []
  | [w] => w
  | w :: ws => w ++ ' ' :: joinWords ws

/-- Python `sep.join(strings)`. -/
def pyJoinStr (sep : String) : List String → String
  | [] => ""
  | [x] => x
  | x :: xs => x ++ sep ++ pyJoinStr sep xs

/-- Round to the nearest integer, ties to even: the rounding CPython
applies in `"{:.0%}".format`. -/
def roundHalfEven (q : ℚ) : ℤ :=
  if q - ⌊q⌋ < 1/2 then ⌊q⌋
  else if 1/2 < q - ⌊q⌋ then ⌊q⌋ + 1
  else if ⌊q⌋ % 2 = 0 then ⌊q⌋ else ⌊q⌋ + 1

/-- Python `f"{x:.0%}"` for the idealised rational value of `x`. -/
def formatPercent (q : ℚ) : String := (roundHalfEven (q * 100)).repr ++ "%"

/-- `EvidenceSource` dataclass (`rag_system.py`, lines 24-34), with the
same field defaults. -/
structure EvidenceSource where
  id : String
  title : String
  content : String
  source_type : String
  url : Option String := none
  publication_date : Option String := none
  reliability_score : ℚ := 8/10
  domain : String := "general"
deriving DecidableEq, Repr

/-- `Citation` dataclass (lines 36-42).  Note: it has exactly these four
fields; in particular there is no `source_type` attribute. -/
structure Citation where
  source_id : String
  text_snippet : String
  relevance_score : ℚ
  citation_format : String
deriving DecidableEq, Repr

/-- `EnhancedResponse` dataclass (lines 44-51). -/
structure EnhancedResponse where
  answer : String
  evidence_sources : List EvidenceSource
  citations : List Citation
  evidence_coverage : ℚ
  citation_quality_score : ℚ
deriving DecidableEq, Repr

/-- The dictionary returned by `RAGSystem._calculate_dynamic_improvements`
(lines 972-978). -/
structure Improvements where
  evidence_coverage : ℚ
  citation_quality : ℚ
  faithfulness_improvement : ℚ
  citation_accuracy_improvement : ℚ
  factual_consistency_improvement : ℚ
deriving DecidableEq, Repr

/-- The retrieval-relevant state of `EvidenceDatabase` after loading:
`sources` (insertion-ordered dict id → source), `domain_index`,
`curated_source_ids`, whether `semantic_model` is non-None, and the
`source_embeddings` dict over the abstract embedding type `V`. -/
structure EvidenceDatabase (V : Type) where
  sources : List (String × EvidenceSource)
  domain_index : List (String × List String)
  curated_source_ids : List String
  semantic_model : Bool
  source_embeddings : List (String × V)

/-- The technical-verb list of
`EvidenceDatabase._calculate_dynamic_similarity_threshold` (line 558). -/
def technical_terms : List (List Char) :=
  ["analyze", "calculate", "determine", "evaluate", "assess", "compare"].map String.data

/-- `EvidenceDatabase._calculate_dynamic_similarity_threshold`
(lines 532-576): domain base threshold, query-length adjustment,
technical-density adjustment, clamped to [0.15, 0.50]. -/
def _calculate_dynamic_similarity_threshold (query domain : String) : ℚ :=
  let base_threshold : ℚ :=
    if lowerL domain.data = "medical".data then 35/100
    else if lowerL domain.data = "finance".data then 32/100
    else if lowerL domain.data = "scientific".data then 35/100
    else if lowerL domain.data = "legal".data then 40/100
    else if lowerL domain.data = "general".data then 25/100
    else 30/100
  let query_length := (pySplit query.data).length
  let length_adjustment : ℚ :=
    if query_length ≤ 3 then -5/100
    else if query_length ≤ 8 then 0
    else 5/100
  let technical_count :=
    (technical_terms.filter (fun term => isSubL term (lowerL query.data))).length
  let technical_density : ℚ := (technical_count : ℚ) / ((max query_length 1 : ℕ) : ℚ)
  let technical_adjustment : ℚ :=
    if 3/10 < technical_density then 5/100
    else if 1/10 < technical_density then 2/100
    else 0
  let final_threshold := base_threshold + length_adjustment + technical_adjustment
  max (15/100) (min final_threshold (50/100))

/-- The curated-source similarity boost inside
`EvidenceDatabase._semantic_search` (lines 496-498): multiply by 1.2 when
the id is curated. -/
def appliedSimilarity {V : Type} (db : EvidenceDatabase V) (raw : ℚ) (source_id : String) : ℚ :=
  if source_id ∈ db.curated_source_ids then raw * (12/10) else raw

/-- Sort order used by `scored_sources.sort(key=lambda x: x[0], reverse=True)`:
descending by score, stable for equal scores. -/
def scoredOrder (a b : ℚ × EvidenceSource) : Prop := b.1 ≤ a.1

instance : DecidableRel scoredOrder :=
  fun a b => inferInstanceAs (Decidable (b.1 ≤ a.1))

instance : IsTotal (ℚ × EvidenceSource) scoredOrder :=
  ⟨fun a b => le_total b.1 a.1⟩

instance : IsTrans (ℚ × EvidenceSource) scoredOrder :=
  ⟨fun _ _ _ h1 h2 => le_trans h2 h1⟩

section Retrieval

variable {V : Type} (encode : String → V) (cosineSim : V → V → ℚ)

/-- The scored candidate list built by the loop of
`EvidenceDatabase._semantic_search` (lines 480-502): skip candidates
without an embedding, compute the cosine similarity of the encoded query
to the source embedding, apply the curated boost, and pair the score with
the source record.  (`self.sources[source_id]` cannot fail in the Python
code because candidate ids come from the source dict; the `filterMap`
skip on a missing id is unreachable under that invariant.) -/
def scoredCandidates (db : EvidenceDatabase V) (query : String)
    (source_ids : List String) : List (ℚ × EvidenceSource) :=
  let query_embedding := encode query
  source_ids.filterMap (fun source_id =>
    match dictGet db.source_embeddings source_id with
    | none => none
    | some source_embedding =>
      let similarity := cosineSim query_embedding source_embedding
      let similarity := appliedSimilarity db similarity source_id
      (dictGet db.sources source_id).map (fun source => (similarity, source)))

/-- `EvidenceDatabase._semantic_search` (lines 477-525): score, sort
descending, filter by the dynamic threshold, take the top `max_results`;
if nothing passes the threshold fall back to the best `min 3 max_results`
scored candidates; with no scored candidates return the empty list. -/
def _semantic_search (db : EvidenceDatabase V) (query : String)
    (source_ids : List String) (max_results : Nat) (domain : String) :
    List EvidenceSource :=
  let scored_sources := scoredCandidates encode cosineSim db query source_ids
  let sorted := List.insertionSort scoredOrder scored_sources
  let min_similarity := _calculate_dynamic_similarity_threshold query domain
  let filtered_sources := sorted.filter (fun p => min_similarity ≤ p.1)
  let top_sources := (filtered_sources.take max_results).map Prod.snd
  if top_sources ≠ [] then top_sources
  else if sorted ≠ [] then (sorted.take (min 3 max_results)).map Prod.snd
  else []

/-- `EvidenceDatabase._keyword_search` (lines 578-616): term-overlap
scoring `(contentOverlap + 2 * titleOverlap) / |queryTerms|`, keep
positive scores, sort descending, take the top `max_results`. -/
def _keyword_search (db : EvidenceDatabase V) (query : String)
    (source_ids : List String) (max_results : Nat) : List EvidenceSource :=
  let query_terms := (pySplit (lowerL query.data)).toFinset
  let scored_sources : List (ℚ × EvidenceSource) := source_ids.filterMap (fun source_id =>
    (dictGet db.sources source_id).bind (fun source =>
      let content_terms := (pySplit (lowerL (source.title ++ " " ++ source.content).data)).toFinset
      let title_terms := (pySplit (lowerL source.title.data)).toFinset
      let content_overlap := (query_terms ∩ content_terms).card
      let title_overlap := (query_terms ∩ title_terms).card
      let relevance_score : ℚ :=
        if 0 < query_terms.card then
          ((content_overlap : ℚ) + (title_overlap : ℚ) * 2) / (query_terms.card : ℚ)
        else 0
      if 0 < relevance_score then some (relevance_score, source) else none))
  let sorted := List.insertionSort scoredOrder scored_sources
  (sorted.take max_results).map Prod.snd

/-- `EvidenceDatabase.search_sources` (lines 459-475): resolve the
candidate ids from the domain index (falling back to all source ids when
the domain has no entries), then use semantic search when the model and
embeddings are available, keyword search otherwise. -/
def search_sources (db : EvidenceDatabase V) (query domain : String)
    (max_results : Nat) : List EvidenceSource :=
  let domain_source_ids := (dictGet db.domain_index domain).getD []
  let domain_source_ids :=
    if domain_source_ids = [] then db.sources.map Prod.fst else domain_source_ids
  if db.semantic_model && !db.source_embeddings.isEmpty then
    _semantic_search encode cosineSim db query domain_source_ids max_results domain
  else
    _keyword_search db query domain_source_ids max_results

end Retrieval

/-- The word-collecting loop of `CitationManager._extract_relevant_snippet`
(lines 665-674): add words while the running length (word lengths plus one
separator each) stays within `max_length - 3`, stopping at the first word
that would overflow. -/
def snippetWords (max_length : Nat) : Nat → List (List Char) → List (List Char)
  | _, [] => []
  | current_length, w :: ws =>
    if max_length - 3 < current_length + w.length + 1 then []
    else w :: snippetWords max_length (current_length + w.length + 1) ws

/-- `CitationManager._extract_relevant_snippet` (lines 656-675): first
sentence plus a period when it fits in `max_length`, otherwise a
whole-word truncation with an ellipsis. -/
def _extract_relevant_snippet (content : String) (max_length : Nat) : String :=
  let sentences := splitDotSpace content.data
  let first := sentences.headD []
  if first.length ≤ max_length then String.mk (first ++ ['.'])
  else String.mk (joinWords (snippetWords max_length 0 (pySplit first)) ++ ['.', '.', '.'])

/-- `CitationManager._format_simple_citation` (lines 677-679). -/
def _format_simple_citation (source : EvidenceSource) (number : Nat) : String :=
  "[" ++ Nat.repr number ++ "] " ++ source.title

/-- `CitationManager.generate_citations` (lines 633-654) in the default
`simple` style (the only style the engine itself invokes; the APA, MLA and
Chicago formatters differ only in the `citation_format` string, which no
verified claim inspects).  The relevance score of a citation is copied
from the reliability score of its source. -/
def generate_citations (sources : List EvidenceSource) : List Citation :=
  (List.enumFrom 1 sources).map (fun p =>
    { source_id := p.2.id
      text_snippet := _extract_relevant_snippet p.2.content 150
      relevance_score := p.2.reliability_score
      citation_format := _format_simple_citation p.2 p.1 })

/-- Python attribute lookup `citation.source_type` on the `Citation`
dataclass: the dataclass declares no such field, so `hasattr` is always
`False` and `getattr` never finds a value. -/
def citationSourceTypeAttr (_ : Citation) : Option String := none

/-- `EvidenceIntegrator._assess_source_reliability` (lines 831-861):
base 0.5; when a `source_type` attribute is present, add a source-type
keyword boost and a relevance-weighted bonus, capped at 1.  The keyword
branch is unreachable because `Citation` has no `source_type` attribute. -/
def _assess_source_reliability (citation : Citation) : ℚ :=
  let reliability_score : ℚ := 1/2
  match citationSourceTypeAttr citation with
  | none => reliability_score
  | some source_type =>
    let st := lowerL source_type.data
    let reliability_score := reliability_score +
      (if isSubL "academic".data st || isSubL "journal".data st then 3/10
       else if isSubL "medical".data st || isSubL "clinical".data st then 25/100
       else if isSubL "financial".data st || isSubL "regulatory".data st then 25/100
       else if isSubL "government".data st || isSubL "official".data st then 20/100
       else if isSubL "news".data st then 10/100
       else 5/100)
    let reliability_score := reliability_score + citation.relevance_score * (15/100)
    min reliability_score 1

/-- `EvidenceIntegrator._calculate_dynamic_citation_quality`
(lines 787-829): mean relevance, source-type diversity bonus, mean
reliability times 0.25, quantity factor, capped at 1.  The source-type
set is collected through the (always absent) `source_type` attribute. -/
def _calculate_dynamic_citation_quality (citations : List Citation) : ℚ :=
  if citations = [] then 0
  else
    let relevance_scores := citations.map Citation.relevance_score
    let base_quality := relevance_scores.sum / (relevance_scores.length : ℚ)
    let source_types := (citations.filterMap citationSourceTypeAttr).dedup
    let diversity_factor := min ((source_types.length : ℚ) / 3) 1
    let diversity_bonus := diversity_factor * (15/100)
    let reliability_scores := citations.map _assess_source_reliability
    let avg_reliability := reliability_scores.sum / (reliability_scores.length : ℚ)
    let reliability_factor := avg_reliability * (25/100)
    let quantity_count := citations.length
    let quantity_factor : ℚ :=
      if quantity_count = 1 then 0
      else if quantity_count = 2 then 10/100
      else if quantity_count = 3 then 20/100
      else 25/100
    min (base_quality + diversity_bonus + reliability_factor + quantity_factor) 1

/-- `EvidenceIntegrator._calculate_citation_quality` (lines 780-785). -/
def _calculate_citation_quality (citations : List Citation) : ℚ :=
  if citations = [] then 0
  else _calculate_dynamic_citation_quality citations

/-- `EvidenceIntegrator._calculate_evidence_coverage` (lines 765-778):
fraction of lowercased query terms appearing in the union of the
retrieved sources, clamped to 1; zero for an empty source list. -/
def _calculate_evidence_coverage (query : String) (sources : List EvidenceSource) : ℚ :=
  if sources = [] then 0
  else
    let query_terms := (pySplit (lowerL query.data)).toFinset
    let covered_terms := sources.foldl (fun acc source =>
      acc ∪ (query_terms ∩ (pySplit (lowerL (source.title ++ " " ++ source.content).data)).toFinset))
      ∅
    let coverage : ℚ :=
      if query_terms = ∅ then 0
      else (covered_terms.card : ℚ) / (query_terms.card : ℚ)
    min coverage 1

section Grounding

variable {V : Type} (encode : String → V) (cosineSim : V → V → ℚ)

/-- `EvidenceIntegrator.enhance_response_with_evidence` (lines 707-746).
`_integrate_evidence_into_response` returns the response unchanged
(lines 748-763), so the answer field is the input response. -/
def enhance_response_with_evidence (db : EvidenceDatabase V)
    (response query domain : String) (max_sources : Nat) : EnhancedResponse :=
  let evidence_sources := search_sources encode cosineSim db query domain max_sources
  if evidence_sources = [] then
    { answer := response
      evidence_sources := []
      citations := []
      evidence_coverage := 0
      citation_quality_score := 0 }
  else
    let citations := generate_citations evidence_sources
    { answer := response
      evidence_sources := evidence_sources
      citations := citations
      evidence_coverage := _calculate_evidence_coverage query evidence_sources
      citation_quality_score := _calculate_citation_quality citations }

end Grounding

/-- `RAGSystem._get_domain_coverage_multiplier` (lines 980-989). -/
def _get_domain_coverage_multiplier (domain : String) : ℚ :=
  if lowerL domain.data = "medical".data then 40/100
  else if lowerL domain.data = "finance".data then 35/100
  else if lowerL domain.data = "scientific".data then 40/100
  else if lowerL domain.data = "legal".data then 45/100
  else if lowerL domain.data = "general".data then 30/100
  else 30/100

/-- Technical-term list of `RAGSystem._assess_query_complexity`
(line 1008); same members as `technical_terms`, listed in a different
order in the source. -/
def complexity_technical_terms : List (List Char) :=
  ["analyze", "compare", "evaluate", "assess", "determine", "calculate"].map String.data

/-- Complexity-marker list of `RAGSystem._assess_query_complexity`
(line 1013). -/
def complex_markers : List (List Char) :=
  ["why", "how", "what if", "compare", "difference", "relationship"].map String.data

/-- `RAGSystem._assess_query_complexity` (lines 991-1017). -/
def _assess_query_complexity (query : String) : ℚ :=
  if query = "" then 0
  else
    let word_count := (pySplit query.data).length
    let length_component : ℚ :=
      if 20 < word_count then 3/10
      else if 10 < word_count then 2/10
      else if 5 < word_count then 1/10
      else 0
    let technical_count :=
      (complexity_technical_terms.filter (fun term => isSubL term (lowerL query.data))).length
    let technical_component : ℚ := min ((technical_count : ℚ) * (15/100)) (3/10)
    let marker_count :=
      (complex_markers.filter (fun marker => isSubL marker (lowerL query.data))).length
    let marker_component : ℚ := min ((marker_count : ℚ) * (1/10)) (2/10)
    min (length_component + technical_component + marker_component) 1

/-- `RAGSystem._assess_evidence_diversity` (lines 1019-1044): source-type
variety and publication-year variety, each normalised to 3, averaged.
`EvidenceSource` always has a `source_type` attribute; a publication date
participates only when present and non-empty (Python truthiness). -/
def _assess_evidence_diversity (evidence_sources : List EvidenceSource) : ℚ :=
  if evidence_sources = [] then 0
  else
    let source_types := (evidence_sources.map EvidenceSource.source_type).dedup
    let publication_years :=
      (((evidence_sources.filterMap EvidenceSource.publication_date).filter
          (fun d => d ≠ "")).map (fun d => d.data.take 4)).dedup
    let type_diversity := min ((source_types.length : ℚ) / 3) 1
    let temporal_diversity := min ((publication_years.length : ℚ) / 3) 1
    (type_diversity + temporal_diversity) / 2

/-- `RAGSystem._calculate_dynamic_improvements` (lines 936-978). -/
def _calculate_dynamic_improvements (enhanced_response : EnhancedResponse)
    (query domain : String) : Improvements :=
  let has_evidence := 0 < enhanced_response.evidence_coverage
  let evidence_count := enhanced_response.evidence_sources.length
  let base_boost : ℚ :=
    if has_evidence then
      3/100 + enhanced_response.citation_quality_score *
        (min ((evidence_count : ℚ) / 3) 1) * (7/100)
    else 0
  let coverage_boost :=
    enhanced_response.evidence_coverage * _get_domain_coverage_multiplier domain
  let citation_base_improvement := enhanced_response.citation_quality_score
  let query_complexity := _assess_query_complexity query
  let citation_complexity_factor := 20/100 + query_complexity * (15/100)
  let citation_improvement := citation_base_improvement * citation_complexity_factor
  let evidence_diversity := _assess_evidence_diversity enhanced_response.evidence_sources
  let consistency_multiplier := 25/100 + evidence_diversity * (15/100)
  let factual_improvement := enhanced_response.evidence_coverage * consistency_multiplier
  let faithfulness_improvement := min (base_boost + coverage_boost) (45/100)
  { evidence_coverage := enhanced_response.evidence_coverage
    citation_quality := enhanced_response.citation_quality_score
    faithfulness_improvement := faithfulness_improvement
    citation_accuracy_improvement := citation_improvement
    factual_consistency_improvement := factual_improvement }

/-- Per-source block emitted by `RAGSystem.format_evidence_for_prompt`
(lines 901-908). -/
def formatSourceBlock (number : Nat) (source : EvidenceSource) : String :=
  "[Source " ++ Nat.repr number ++ "] " ++ source.title ++ "\n"
  ++ "Type: " ++ source.source_type ++ "\n"
  ++ "Reliability: " ++ formatPercent source.reliability_score ++ "\n"
  ++ "Content: " ++ String.mk (source.content.data.take 400) ++ "...\n"
  ++ (match source.url with
      | some url => "URL: " ++ url ++ "\n"
      | none => "")
  ++ "\n"

/-- The citation-instructions trailer of `format_evidence_for_prompt`
(lines 910-912). -/
def citation_instructions : String :=
  "=== CITATION INSTRUCTIONS ===\n"
  ++ "You MUST cite these sources in your response using [Source X] format.\n"
  ++ "Example: \x27Low-dose aspirin reduces cardiovascular risk [Source 1].\x27\n\n"

/-- `RAGSystem.format_evidence_for_prompt` (lines 886-914). -/
def format_evidence_for_prompt (sources : List EvidenceSource) : String :=
  if sources = [] then "No specific evidence sources available for this query."
  else
    "=== EVIDENCE SOURCES ===\n\n"
    ++ String.join ((List.enumFrom 1 sources).map (fun p => formatSourceBlock p.1 p.2))
    ++ citation_instructions


/-- Modulus for 32-bit words. -/
def u32 : Nat := 4294967296

/-- The MD5 sine-derived constant table (RFC 1321). -/
def md5K : List Nat :=
  [0xd76aa478, 0xe8c7b756, 0x242070db, 0xc1bdceee,
   0xf57c0faf, 0x4787c62a, 0xa8304613, 0xfd469501,
   0x698098d8, 0x8b44f7af, 0xffff5bb1, 0x895cd7be,
   0x6b901122, 0xfd987193, 0xa679438e, 0x49b40821,
   0xf61e2562, 0xc040b340, 0x265e5a51, 0xe9b6c7aa,
   0xd62f105d, 0x02441453, 0xd8a1e681, 0xe7d3fbc8,
   0x21e1cde6, 0xc33707d6, 0xf4d50d87, 0x455a14ed,
   0xa9e3e905, 0xfcefa3f8, 0x676f02d9, 0x8d2a4c8a,
   0xfffa3942, 0x8771f681, 0x6d9d6122, 0xfde5380c,
   0xa4beea44, 0x4bdecfa9, 0xf6bb4b60, 0xbebfbc70,
   0x289b7ec6, 0xeaa127fa, 0xd4ef3085, 0x04881d05,
   0xd9d4d039, 0xe6db99e5, 0x1fa27cf8, 0xc4ac5665,
   0xf4292244, 0x432aff97, 0xab9423a7, 0xfc93a039,
   0x655b59c3, 0x8f0ccc92, 0xffeff47d, 0x85845dd1,
   0x6fa87e4f, 0xfe2ce6e0, 0xa3014314, 0x4e0811a1,
   0xf7537e82, 0xbd3af235, 0x2ad7d2bb, 0xeb86d391]

/-- The MD5 per-round left-rotation amounts (RFC 1321). -/
def md5S : List Nat :=
  [7, 12, 17, 22, 7, 12, 17, 22, 7, 12, 17, 22, 7, 12, 17, 22,
   5, 9, 14, 20, 5, 9, 14, 20, 5, 9, 14, 20, 5, 9, 14, 20,
   4, 11, 16, 23, 4, 11, 16, 23, 4, 11, 16, 23, 4, 11, 16, 23,
   6, 10, 15, 21, 6, 10, 15, 21, 6, 10, 15, 21, 6, 10, 15, 21]

/-- 32-bit left rotation (argument assumed below `u32`). -/
def rotl32 (x s : Nat) : Nat := (((x <<< s) % u32) ||| (x >>> (32 - s)))

/-- UTF-8 encoding of a character list (CPython `str.encode()`). -/
def utf8Bytes : List Char → List Nat
  | [] => []
  | c :: cs =>
    let n := c.toNat
    (if n < 0x80 then [n]
     else if n < 0x800 then
       [0xC0 ||| (n >>> 6), 0x80 ||| (n &&& 0x3F)]
     else if n < 0x10000 then
       [0xE0 ||| (n >>> 12), 0x80 ||| ((n >>> 6) &&& 0x3F), 0x80 ||| (n &&& 0x3F)]
     else
       [0xF0 ||| (n >>> 18), 0x80 ||| ((n >>> 12) &&& 0x3F),
        0x80 ||| ((n >>> 6) &&& 0x3F), 0x80 ||| (n &&& 0x3F)]) ++ utf8Bytes cs

/-- MD5 padding: append `0x80`, zero-fill to 56 mod 64, then the original
bit length as eight little-endian bytes. -/
def md5Pad (msg : List Nat) : List Nat :=
  let len := msg.length
  let bitLen := (len * 8) % (2 ^ 64)
  let zeros := (120 - ((len + 1) % 64)) % 64
  msg ++ [0x80] ++ List.replicate zeros 0
      ++ (List.range 8).map (fun i => (bitLen >>> (8 * i)) &&& 0xFF)

/-- Decode a 64-byte block into sixteen little-endian 32-bit words. -/
def md5Words (block : List Nat) : List Nat :=
  (List.range 16).map (fun i =>
    block.getD (4 * i) 0 + block.getD (4 * i + 1) 0 * 256
      + block.getD (4 * i + 2) 0 * 65536 + block.getD (4 * i + 3) 0 * 16777216)

/-- One of the 64 MD5 operations on the state `(a, b, c, d)`. -/
def md5Step (M : List Nat) (st : Nat × Nat × Nat × Nat) (i : Nat) :
    Nat × Nat × Nat × Nat :=
  let a := st.1
  let b := st.2.1
  let c := st.2.2.1
  let d := st.2.2.2
  let fg : Nat × Nat :=
    if i < 16 then ((b &&& c) ||| ((u32 - 1 - b) &&& d), i)
    else if i < 32 then ((d &&& b) ||| ((u32 - 1 - d) &&& c), (5 * i + 1) % 16)
    else if i < 48 then (b ^^^ c ^^^ d, (3 * i + 5) % 16)
    else (c ^^^ (b ||| (u32 - 1 - d)), (7 * i) % 16)
  let tmp := (fg.1 + a + md5K.getD i 0 + M.getD fg.2 0) % u32
  (d, (b + rotl32 tmp (md5S.getD i 0)) % u32, b, c)

/-- Process one 64-byte block. -/
def md5Block (st : Nat × Nat × Nat × Nat) (block : List Nat) :
    Nat × Nat × Nat × Nat :=
  let M := md5Words block
  let r := (List.range 64).foldl (md5Step M) st
  ((st.1 + r.1) % u32, (st.2.1 + r.2.1) % u32,
   (st.2.2.1 + r.2.2.1) % u32, (st.2.2.2 + r.2.2.2) % u32)

/-- Lowercase hexadecimal digit. -/
def hexChar (n : Nat) : Char :=
  if n < 10 then Char.ofNat (48 + n) else Char.ofNat (87 + n)

/-- Two-digit lowercase hex of a byte. -/
def byteHex (n : Nat) : List Char := [hexChar (n / 16), hexChar (n % 16)]

/-- Little-endian hex rendering of a 32-bit word (as in `hexdigest`). -/
def wordLEHex (w : Nat) : List Char :=
  ((List.range 4).map (fun i => byteHex ((w >>> (8 * i)) &&& 0xFF))).flatten

/-- `hashlib.md5(s.encode()).hexdigest()`: the full MD5 hex digest of the
UTF-8 encoding of `s` (RFC 1321). -/
def md5hexdigest (s : String) : String :=
  let padded := md5Pad (utf8Bytes s.data)
  let nblocks := padded.length / 64
  let blocks := (List.range nblocks).map (fun b => (padded.drop (64 * b)).take 64)
  let r := blocks.foldl md5Block (0x67452301, 0xefcdab89, 0x98badcfe, 0x10325476)
  String.mk (wordLEHex r.1 ++ wordLEHex r.2.1 ++ wordLEHex r.2.2.1 ++ wordLEHex r.2.2.2)

/-- Python `sorted(ids)` for the cache key (lexicographic string order). -/
def sortedIds (ids : List String) : List String :=
  List.insertionSort (fun a b => a ≤ b) ids

/-- The string hashed to derive the embeddings cache key
(`rag_system.py` line 420): the sorted source ids joined with `|`. -/
def cacheKeyInput (ids : List String) : String := pyJoinStr "|" (sortedIds ids)

/-- The embeddings cache key (lines 419-421):
`hashlib.md5("|".join(sorted(ids)).encode()).hexdigest()[:12]`. -/
def cacheKey (ids : List String) : String :=
  String.mk ((md5hexdigest (cacheKeyInput ids)).data.take 12)

section EmbeddingCache

variable {V : Type} (encode : String → V)

/-- `EvidenceDatabase._compute_embeddings` (lines 361-410) on the
failure-free path: one embedding per source from `title + ". " + content`.
(Batching and per-item retry only matter when the external encoder throws;
encoder failures are outside the model.) -/
def _compute_embeddings (sources : List (String × EvidenceSource)) : List (String × V) :=
  sources.map (fun p => (p.1, encode (p.2.title ++ ". " ++ p.2.content)))

/-- `EvidenceDatabase._compute_embeddings_with_cache` (lines 412-457).
`cache` models the cache directory: the stored id → vector archive for a
given key, if that cache file exists.  Returns the resulting embeddings
and whether the encoder was invoked (`true`) or the cache was reused
verbatim (`false`).  A cache hit restores the embeddings of all current
ids present in the archive; only a complete restoration is accepted,
otherwise everything is recomputed. -/
def _compute_embeddings_with_cache (sources : List (String × EvidenceSource))
    (cache : String → Option (List (String × V))) : List (String × V) × Bool :=
  let key := cacheKey (sources.map Prod.fst)
  match cache key with
  | some cached_data =>
    let restored := sources.filterMap (fun p =>
      (dictGet cached_data p.1).map (fun v => (p.1, v)))
    if restored.length = sources.length then (restored, false)
    else (_compute_embeddings encode sources, true)
  | none => (_compute_embeddings encode sources, true)

end EmbeddingCache

/-! Concrete instances used by counterexamples and witnesses. -/

/-- A curated source (id `c`). -/
def curatedSrc : EvidenceSource :=
  { id := "c", title := "Curated guideline", content := "Curated content body",
    source_type := "clinical_guideline", reliability_score := 95/100 }

/-- A bulk dataset source (id `b`). -/
def bulkSrc : EvidenceSource :=
  { id := "b", title := "Bulk dataset entry", content := "Bulk content body",
    source_type := "qa_dataset", reliability_score := 75/100 }

/-- A database holding the bulk and the curated source, both embedded
(embedding handles 1 and 2 over `V := Nat`). -/
def dbPair : EvidenceDatabase Nat :=
  { sources := [("b", bulkSrc), ("c", curatedSrc)]
    domain_index := [("general", ["b", "c"])]
    curated_source_ids := ["c"]
    semantic_model := true
    source_embeddings := [("b", 1), ("c", 2)] }

/-- A query encoder stub for concrete instances. -/
def constEncode : String → Nat := fun _ => 0

/-- A cosine-similarity oracle giving every source raw similarity −1/2. -/
def negHalfSim : Nat → Nat → ℚ := fun _ _ => -1/2

/-- A cosine-similarity oracle giving every source raw similarity 1/2. -/
def posHalfSim : Nat → Nat → ℚ := fun _ _ => 1/2

/-- A medical source used for the domain-fallback counterexample. -/
def medSrc : EvidenceSource :=
  { id := "med_001", title := "Diabetes Management",
    content := "Metformin is first line treatment for diabetes",
    source_type := "clinical_guideline", reliability_score := 95/100,
    domain := "medical" }

/-- A repository holding only the medical source, operating in keyword
mode (no semantic model). -/
def dbMedOnly : EvidenceDatabase Nat :=
  { sources := [("med_001", medSrc)]
    domain_index := [("medical", ["med_001"])]
    curated_source_ids := ["med_001"]
    semantic_model := false
    source_embeddings := [] }

/-- An empty repository. -/
def dbEmpty : EvidenceDatabase Nat :=
  { sources := [], domain_index := [], curated_source_ids := []
    semantic_model := true, source_embeddings := [] }

/-- A 25-word query containing exactly the three technical verbs
`analyze`, `calculate` and `determine`. -/
def queryC2 : String :=
  "please analyze the quarterly report and calculate the revenue growth then determine the dosage impact for patients with diabetes under the new medical treatment guidelines"

/-- Two sources of distinct source types (academic and clinical). -/
def srcAcademic : EvidenceSource :=
  { id := "a1", title := "Alpha study", content := "Alpha finding",
    source_type := "academic_research", reliability_score := 2/5 }

/-- Second distinct-type source. -/
def srcClinical : EvidenceSource :=
  { id := "a2", title := "Beta guideline", content := "Beta advice",
    source_type := "clinical_guideline", reliability_score := 3/5 }

/-- Same data as `srcAcademic` but tagged as a bulk Q&A dataset entry. -/
def srcDatasetA : EvidenceSource :=
  { id := "a1", title := "Alpha study", content := "Alpha finding",
    source_type := "qa_dataset", reliability_score := 2/5 }

/-- Same data as `srcClinical` but tagged as a bulk Q&A dataset entry. -/
def srcDatasetB : EvidenceSource :=
  { id := "a2", title := "Beta guideline", content := "Beta advice",
    source_type := "qa_dataset", reliability_score := 3/5 }

/-- A content string of 150 `a` characters (no sentence separator). -/
def content150 : String := String.mk (List.replicate 150 'a')

/-! Helper lemmas. -/

/-- `startsL` decides the list-prefix relation. -/
theorem startsTrue : ∀ (n h : List Char), startsL n h = true ↔ n <+: h := by
  intro n
  induction n with
  | nil => intro h; simp [startsL]
  | cons a as ih =>
    intro h
    cases h with
    | nil => simp [startsL]
    | cons b bs =>
      simp only [startsL, Bool.and_eq_true, beq_iff_eq, ih bs]
      constructor
      · rintro ⟨rfl, t, rfl⟩
        exact ⟨t, rfl⟩
      · rintro ⟨t, ht⟩
        injection ht with h1 h2
        exact ⟨h1, t, h2⟩

/-- `isSubL` decides the list-infix relation. -/
theorem subTrue (n : List Char) : ∀ h, isSubL n h = true ↔ n <:+: h := by
  intro h
  induction h with
  | nil =>
    simp only [isSubL, List.isEmpty_iff]
    constructor
    · rintro rfl; exact ⟨[], [], rfl⟩
    · rintro ⟨s, t, hst⟩
      rcases List.append_eq_nil.mp hst with ⟨h1, h2⟩
      exact (List.append_eq_nil.mp h1).2
  | cons c cs ih =>
    simp only [isSubL, Bool.or_eq_true, startsTrue, ih]
    constructor
    · rintro (⟨t, ht⟩ | ⟨s, t, hst⟩)
      · exact ⟨[], t, by simpa using ht⟩
      · exact ⟨c :: s, t, by simp [hst]⟩
    · rintro ⟨s, t, hst⟩
      cases s with
      | nil => exact Or.inl ⟨t, by simpa using hst⟩
      | cons x xs =>
        injection hst with h1 h2
        exact Or.inr ⟨xs, t, h2⟩

/-- A prefix is an infix. -/
theorem insideOfStarts {α : Type} {n a : List α} (h : n <+: a) : n <:+: a := by
  rcases h with ⟨t, rfl⟩
  exact ⟨[], t, rfl⟩

/-- An infix of the left part is an infix of an append. -/
theorem insideExtRight {α : Type} {n a : List α} (h : n <:+: a) (b : List α) :
    n <:+: a ++ b := by
  rcases h with ⟨s, t, rfl⟩
  exact ⟨s, t ++ b, by simp⟩

/-- An infix of the right part is an infix of an append. -/
theorem insideExtLeft {α : Type} {n b : List α} (h : n <:+: b) (a : List α) :
    n <:+: a ++ b := by
  rcases h with ⟨s, t, rfl⟩
  exact ⟨a ++ s, t, by simp⟩

/-- In a `Pairwise R` list, an element `a` that `b` may not precede
(`¬ R b a`) occurs strictly before `b`: `[a, b]` is a sublist. -/
theorem pairBefore {α : Type} {R : α → α → Prop} (hrefl : ∀ x, R x x) :
    ∀ {l : List α} {a b : α}, l.Pairwise R → a ∈ l → b ∈ l → ¬ R b a →
      [a, b].Sublist l := by
  intro l
  induction l with
  | nil => intro a b _ ha _ _; cases ha
  | cons x t ih =>
    intro a b hpw ha hb hnR
    rcases List.pairwise_cons.mp hpw with ⟨hx, ht⟩
    rcases List.mem_cons.mp ha with h1 | hat
    · rcases List.mem_cons.mp hb with h2 | hbt
      · exact absurd (show R b a by rw [h1, h2]; exact hrefl x) hnR
      · rw [h1]
        exact List.Sublist.cons₂ x (List.singleton_sublist.mpr hbt)
    · rcases List.mem_cons.mp hb with h2 | hbt
      · rw [h2] at hnR
        exact absurd (hx a hat) hnR
      · exact List.Sublist.cons x (ih ht hat hbt hnR)

/-- A two-element sublist of a duplicate-free list survives `take` as soon
as its second element survives. -/
theorem sublistPairTake {α : Type} :
    ∀ {l : List α} {n : Nat} {a b : α},
      [a, b].Sublist l → l.Nodup → b ∈ l.take n → [a, b].Sublist (l.take n) := by
  intro l
  induction l with
  | nil =>
    intro n a b hsub _ _
    exact absurd (List.sublist_nil.mp hsub) (by simp)
  | cons x t ih =>
    intro n a b hsub hnd hmem
    match n with
    | 0 => simp at hmem
    | Nat.succ m =>
      rw [List.take_succ_cons] at hmem ⊢
      rcases List.nodup_cons.mp hnd with ⟨hxnot, hndt⟩
      cases hsub with
      | cons _ h2 =>
        rcases List.mem_cons.mp hmem with rfl | hbt
        · exact absurd (h2.subset (by simp)) hxnot
        · exact List.Sublist.cons x (ih h2 hndt hbt)
      | cons₂ _ h2 =>
        rcases List.mem_cons.mp hmem with rfl | hbt
        · exact absurd (List.singleton_sublist.mp h2) hxnot
        · exact List.Sublist.cons₂ x (List.singleton_sublist.mpr hbt)

/-- `filterMap` preserves length when the function is total on the list. -/
theorem filterMapLenAll {α β : Type} (f : α → Option β) :
    ∀ l : List α, (∀ a ∈ l, (f a).isSome) → (l.filterMap f).length = l.length := by
  intro l
  induction l with
  | nil => intro _; rfl
  | cons x t ih =>
    intro h
    rcases Option.isSome_iff_exists.mp (h x (by simp)) with ⟨b, hb⟩
    rw [List.filterMap_cons, hb]
    simp only [List.length_cons]
    rw [ih (fun a ha => h a (by simp [ha]))]

/-- Length of a Python join over a non-empty list. -/
theorem pyJoinStrLen (sep : String) :
    ∀ l : List String, l ≠ [] →
      (pyJoinStr sep l).length
        = (l.map String.length).sum + sep.length * (l.length - 1) := by
  intro l
  induction l with
  | nil => intro h; exact absurd rfl h
  | cons x t ih =>
    intro _
    match t, ih with
    | [], _ => simp [pyJoinStr]
    | y :: ts, ih =>
      have hrec := ih (by simp)
      show (x ++ sep ++ pyJoinStr sep (y :: ts)).length = _
      rw [String.length_append, String.length_append, hrec]
      simp only [List.map_cons, List.sum_cons, List.length_cons,
        Nat.add_sub_cancel]
      ring

/-- `sortedIds` permutes its input. -/
theorem sortedIdsPerm (ids : List String) : (sortedIds ids).Perm ids :=
  List.perm_insertionSort _ ids

/-- Sorting with a linear order is a function of the multiset of inputs:
permuted id collections sort identically. -/
theorem sortedIdsEq {ids1 ids2 : List String} (h : ids1.Perm ids2) :
    sortedIds ids1 = sortedIds ids2 :=
  List.eq_of_perm_of_sorted
    ((sortedIdsPerm ids1).trans (h.trans (sortedIdsPerm ids2).symm))
    (List.sorted_insertionSort _ ids1) (List.sorted_insertionSort _ ids2)

/-- The payload of an `enumFrom` element is an element of the base list. -/
theorem memEnumFromSnd {α : Type} :
    ∀ (l : List α) (n : Nat) (p : Nat × α), p ∈ List.enumFrom n l → p.2 ∈ l := by
  intro l
  induction l with
  | nil => intro n p hp; cases hp
  | cons x t ih =>
    intro n p hp
    rcases List.mem_cons.mp hp with rfl | h
    · simp
    · exact List.mem_cons_of_mem _ (ih (n + 1) p h)

/-! Claim theorems. -/

/-- C5: for every query string and every domain string (including unknown
domains), the dynamic similarity threshold lies in the closed interval
[0.15, 0.50]. -/
theorem c5_threshold_bounds (query domain : String) :
    15/100 ≤ _calculate_dynamic_similarity_threshold query domain ∧
    _calculate_dynamic_similarity_threshold query domain ≤ 50/100 := by
  simp only [_calculate_dynamic_similarity_threshold]
  exact ⟨le_max_left _ _, max_le (by norm_num) (min_le_right _ _)⟩

unseal Rat.mul Rat.add Rat.sub Rat.inv in
/-- C2 counterexample: `queryC2` has 25 words and contains exactly 3 of
the technical verbs, yet its dynamic threshold in the medical domain is
0.42, not the 0.45 the claim asserts (3 verbs in 25 words give density
0.12, which falls in the `> 0.1` branch worth +0.02, not +0.05). -/
theorem c2_counterexample :
    (pySplit queryC2.data).length = 25 ∧
    (technical_terms.filter (fun term => isSubL term (lowerL queryC2.data))).length = 3 ∧
    _calculate_dynamic_similarity_threshold queryC2 "medical" = 42/100 ∧
    _calculate_dynamic_similarity_threshold queryC2 "medical" ≠ 45/100 := by
  decide

/-- C2 amended: a 25-word query with 3 technical verbs in the medical
domain gets threshold clamp(0.35 + 0.05 + 0.02, 0.15, 0.50) = 0.42 (the
technical density 3/25 = 0.12 earns the +0.02 adjustment). -/
theorem c2_amended (query : String)
    (hwords : (pySplit query.data).length = 25)
    (htech : (technical_terms.filter (fun term => isSubL term (lowerL query.data))).length = 3) :
    _calculate_dynamic_similarity_threshold query "medical" = 42/100 := by
  have hdom : lowerL "medical".data = "medical".data := by decide
  simp only [_calculate_dynamic_similarity_threshold, hwords, htech, hdom]
  norm_num [min_def, max_def]

/-- Witness for C2: the hypotheses of `c2_amended` hold at `queryC2`. -/
theorem c2_witness :
    _calculate_dynamic_similarity_threshold queryC2 "medical" = 42/100 :=
  c2_amended queryC2 (by decide) (by decide)

/-- Running-length invariant for the snippet truncation loop: the joined
result plus the starting length stays below the 147-character budget. -/
theorem snippetWordsLen (ws : List (List Char)) :
    ∀ cur, snippetWords 150 cur ws = [] ∨
      cur + (joinWords (snippetWords 150 cur ws)).length + 1 ≤ 147 := by
  induction ws with
  | nil => intro _; exact Or.inl rfl
  | cons w t ih =>
    intro cur
    by_cases h : 150 - 3 < cur + w.length + 1
    · left
      simp [snippetWords, h]
    · right
      rw [show snippetWords 150 cur (w :: t)
            = w :: snippetWords 150 (cur + w.length + 1) t from by
          simp [snippetWords, h]]
      cases hr : snippetWords 150 (cur + w.length + 1) t with
      | nil =>
        simp only [joinWords]
        omega
      | cons r rs =>
        rcases ih (cur + w.length + 1) with h2 | h2
        · rw [hr] at h2; cases h2
        · rw [hr] at h2
          rw [show joinWords (w :: r :: rs) = w ++ ' ' :: joinWords (r :: rs) from rfl]
          simp only [List.length_append, List.length_cons]
          omega

set_option maxRecDepth 10000 in
/-- C8 counterexample: a 150-character single-sentence content yields a
151-character snippet (the first branch appends a period to a first
sentence that is allowed to be up to 150 characters), refuting the
claimed 150-character bound. -/
theorem c8_counterexample :
    ¬ (_extract_relevant_snippet content150 150).length ≤ 150 := by
  decide

/-- C8 amended: the snippet is at most 151 characters: a first sentence of
at most 150 characters is returned with a trailing period (up to 151
characters); a longer first sentence is truncated at the last whole word
boundary before 147 characters with an ellipsis, for at most 149
characters. -/
theorem c8_amended (content : String) :
    (_extract_relevant_snippet content 150).length ≤ 151 ∧
    (((splitDotSpace content.data).headD []).length ≤ 150 →
      _extract_relevant_snippet content 150
        = String.mk ((splitDotSpace content.data).headD [] ++ ['.'])) ∧
    (150 < ((splitDotSpace content.data).headD []).length →
      (_extract_relevant_snippet content 150).length ≤ 149) := by
  unfold _extract_relevant_snippet
  by_cases h : ((splitDotSpace content.data).headD []).length ≤ 150
  · rw [if_pos h]
    refine ⟨?_, fun _ => rfl, fun h2 => absurd h (by omega)⟩
    show ((splitDotSpace content.data).headD [] ++ ['.']).length ≤ 151
    simp only [List.length_append, List.length_cons, List.length_nil]
    omega
  · rw [if_neg h]
    have hbound :
        (joinWords (snippetWords 150 0 (pySplit ((splitDotSpace content.data).headD [])))).length ≤ 146 := by
      rcases snippetWordsLen (pySplit ((splitDotSpace content.data).headD [])) 0 with h2 | h2
      · rw [h2]; simp [joinWords]
      · omega
    refine ⟨?_, fun h2 => absurd h2 (by omega), fun _ => ?_⟩
    · show (joinWords _ ++ ['.', '.', '.']).length ≤ 151
      simp only [List.length_append, List.length_cons, List.length_nil]
      omega
    · show (joinWords _ ++ ['.', '.', '.']).length ≤ 149
      simp only [List.length_append, List.length_cons, List.length_nil]
      omega

/-- Witness for C8: the short-sentence branch of `c8_amended` at the
concrete medical source content. -/
theorem c8_witness :
    _extract_relevant_snippet medSrc.content 150
      = String.mk ((splitDotSpace medSrc.content.data).headD [] ++ ['.']) :=
  (c8_amended medSrc.content).2.1 (by decide)

/-- The per-citation reliability heuristic always returns its 0.5 base:
the `Citation` dataclass has no `source_type` attribute, so the
type-keyword branch of `_assess_source_reliability` is dead code. -/
theorem assessConst (c : Citation) : _assess_source_reliability c = 1/2 := rfl

set_option maxRecDepth 10000 in
unseal Rat.mul Rat.add Rat.sub Rat.inv in
/-- C3 (code-bug evidence): the citation-quality score reduces to
mean relevance + 0 (diversity) + 0.5 × 0.25 (reliability) + quantity
factor, capped at 1 — the diversity bonus and the source-type reliability
boost never vary with the cited sources because `Citation` carries no
`source_type`; concretely, citation pairs generated from sources that
differ only in their source types score identically. -/
theorem c3_quality_ignores_types :
    (∀ citations : List Citation, citations ≠ [] →
      _calculate_dynamic_citation_quality citations
        = min ((citations.map Citation.relevance_score).sum / (citations.length : ℚ)
            + 1/8
            + (if citations.length = 1 then 0
               else if citations.length = 2 then 10/100
               else if citations.length = 3 then 20/100 else 25/100)) 1) ∧
    _calculate_citation_quality (generate_citations [srcAcademic, srcClinical])
      = _calculate_citation_quality (generate_citations [srcDatasetA, srcDatasetB]) := by
  constructor
  · intro citations h
    unfold _calculate_dynamic_citation_quality
    rw [if_neg h]
    have hst : citations.filterMap citationSourceTypeAttr = [] :=
      List.filterMap_eq_nil_iff.mpr (fun a _ => rfl)
    have hmap : ∀ l : List Citation,
        l.map _assess_source_reliability = List.replicate l.length (1/2 : ℚ) := by
      intro l
      induction l with
      | nil => rfl
      | cons x t ih => simp [assessConst, ih, List.replicate_succ]
    have hlen : (citations.length : ℚ) ≠ 0 :=
      Nat.cast_ne_zero.mpr (fun hh => h (List.length_eq_zero.mp hh))
    rw [hst, hmap]
    simp only [List.dedup_nil, List.length_nil, List.length_map,
      List.sum_replicate, List.length_replicate, Nat.cast_zero, zero_div]
    rw [nsmul_eq_mul, mul_div_cancel_left₀ _ hlen]
    norm_num
  · decide

/-- C10: formatting an empty source list yields exactly the fixed
no-evidence sentence, which contains neither the evidence-sources header
nor the citation-instructions section; formatting any non-empty list
produces both. -/
theorem c10_prompt_format :
    format_evidence_for_prompt [] = "No specific evidence sources available for this query." ∧
    isSubL "=== EVIDENCE SOURCES ===".data (format_evidence_for_prompt []).data = false ∧
    isSubL "=== CITATION INSTRUCTIONS ===".data (format_evidence_for_prompt []).data = false ∧
    (∀ sources : List EvidenceSource, sources ≠ [] →
      isSubL "=== EVIDENCE SOURCES ===".data (format_evidence_for_prompt sources).data = true ∧
      isSubL "=== CITATION INSTRUCTIONS ===".data (format_evidence_for_prompt sources).data = true) := by
  refine ⟨rfl, by decide, by decide, ?_⟩
  intro sources h
  unfold format_evidence_for_prompt
  rw [if_neg h]
  rw [String.data_append, String.data_append]
  constructor
  · rw [subTrue]
    exact insideExtRight (insideExtRight
      (insideOfStarts (by decide :
        "=== EVIDENCE SOURCES ===".data <+: "=== EVIDENCE SOURCES ===\n\n".data)) _) _
  · rw [subTrue]
    exact insideExtLeft
      (insideOfStarts (by decide :
        "=== CITATION INSTRUCTIONS ===".data <+: citation_instructions.data)) _

/-- Witness for C10: the non-empty branch at a concrete one-source list. -/
theorem c10_witness :
    isSubL "=== EVIDENCE SOURCES ===".data (format_evidence_for_prompt [medSrc]).data = true ∧
    isSubL "=== CITATION INSTRUCTIONS ===".data (format_evidence_for_prompt [medSrc]).data = true :=
  c10_prompt_format.2.2.2 [medSrc] (by decide)

/-- C6: for every query and source list whose reliability scores lie in
[0,1], evidence coverage and the citation-quality score of the generated
citations lie in [0,1]; coverage is 0 for an empty source list and
citation quality is 0 for an empty citation list. -/
theorem c6_bounds (query : String) (sources : List EvidenceSource)
    (hrel : ∀ src ∈ sources, 0 ≤ src.reliability_score ∧ src.reliability_score ≤ 1) :
    (0 ≤ _calculate_evidence_coverage query sources ∧
     _calculate_evidence_coverage query sources ≤ 1) ∧
    (0 ≤ _calculate_citation_quality (generate_citations sources) ∧
     _calculate_citation_quality (generate_citations sources) ≤ 1) ∧
    _calculate_evidence_coverage query [] = 0 ∧
    _calculate_citation_quality ([] : List Citation) = 0 := by
  have hrelc : ∀ c ∈ generate_citations sources,
      0 ≤ c.relevance_score ∧ c.relevance_score ≤ 1 := by
    intro c hc
    unfold generate_citations at hc
    rcases List.mem_map.mp hc with ⟨p, hp, rfl⟩
    exact hrel p.2 (memEnumFromSnd sources 1 p hp)
  refine ⟨?_, ?_, by simp [_calculate_evidence_coverage], by simp [_calculate_citation_quality]⟩
  · unfold _calculate_evidence_coverage
    by_cases h : sources = []
    · rw [if_pos h]; norm_num
    · rw [if_neg h]
      refine ⟨le_min ?_ (by norm_num), min_le_right _ _⟩
      split
      · exact le_refl 0
      · positivity
  · unfold _calculate_citation_quality
    by_cases h : generate_citations sources = []
    · rw [if_pos h]; norm_num
    · rw [if_neg h]
      unfold _calculate_dynamic_citation_quality
      rw [if_neg h]
      refine ⟨le_min ?_ (by norm_num), min_le_right _ _⟩
      have hbase : 0 ≤ ((generate_citations sources).map Citation.relevance_score).sum
          / (((generate_citations sources).map Citation.relevance_score).length : ℚ) := by
        apply div_nonneg ?_ (by positivity)
        apply List.sum_nonneg
        intro x hx
        rcases List.mem_map.mp hx with ⟨c, hc, rfl⟩
        exact (hrelc c hc).1
      have hdiv : (0:ℚ) ≤
          min ((((generate_citations sources).filterMap citationSourceTypeAttr).dedup.length : ℚ) / 3) 1
            * (15/100) :=
        mul_nonneg (le_min (by positivity) (by norm_num)) (by norm_num)
      have hrelsum : (0:ℚ) ≤ ((generate_citations sources).map _assess_source_reliability).sum
          / (((generate_citations sources).map _assess_source_reliability).length : ℚ)
            * (25/100) := by
        apply mul_nonneg ?_ (by norm_num)
        apply div_nonneg ?_ (by positivity)
        apply List.sum_nonneg
        intro x hx
        rcases List.mem_map.mp hx with ⟨c, _, rfl⟩
        rw [assessConst]
        norm_num
      have hquant : (0:ℚ) ≤
          (if (generate_citations sources).length = 1 then 0
           else if (generate_citations sources).length = 2 then 10/100
           else if (generate_citations sources).length = 3 then 20/100
           else 25/100) := by
        split
        · exact le_refl 0
        · split
          · norm_num
          · split <;> norm_num
      exact add_nonneg (add_nonneg (add_nonneg hbase hdiv) hrelsum) hquant

/-- Witness for C6: the bounds at a concrete query and source list. -/
theorem c6_witness :
    0 ≤ _calculate_evidence_coverage "diabetes treatment" [medSrc] ∧
    _calculate_evidence_coverage "diabetes treatment" [medSrc] ≤ 1 :=
  (c6_bounds "diabetes treatment" [medSrc] (by
    intro src hsrc
    rcases List.mem_singleton.mp hsrc with rfl
    constructor <;> norm_num [medSrc])).1

/-- C4 amended: when the repository holds no sources at all (empty source
dict and empty domain index), retrieval in the finance domain returns the
empty list for every query and bound, and grounding yields coverage 0,
citation quality 0, and zero for all three improvement deltas.  (With a
non-empty repository the claim fails: an empty finance bucket falls back
to searching all sources, see the counterexample.) -/
theorem c4_amended {V : Type} (encode : String → V) (cosineSim : V → V → ℚ)
    (db : EvidenceDatabase V) (response query : String) (k max_sources : Nat)
    (hsrc : db.sources = []) (hidx : db.domain_index = []) :
    search_sources encode cosineSim db query "finance" k = [] ∧
    (enhance_response_with_evidence encode cosineSim db response query "finance"
      max_sources).evidence_coverage = 0 ∧
    (enhance_response_with_evidence encode cosineSim db response query "finance"
      max_sources).citation_quality_score = 0 ∧
    (_calculate_dynamic_improvements (enhance_response_with_evidence encode cosineSim db
      response query "finance" max_sources) query "finance").faithfulness_improvement = 0 ∧
    (_calculate_dynamic_improvements (enhance_response_with_evidence encode cosineSim db
      response query "finance" max_sources) query "finance").citation_accuracy_improvement = 0 ∧
    (_calculate_dynamic_improvements (enhance_response_with_evidence encode cosineSim db
      response query "finance" max_sources) query "finance").factual_consistency_improvement = 0 := by
  have hsearch : ∀ n, search_sources encode cosineSim db query "finance" n = [] := by
    intro n
    unfold search_sources
    rw [hidx, hsrc]
    simp [dictGet, _semantic_search, _keyword_search, scoredCandidates, List.insertionSort]
  have henh : enhance_response_with_evidence encode cosineSim db response query "finance"
      max_sources
      = { answer := response, evidence_sources := [], citations := [],
          evidence_coverage := 0, citation_quality_score := 0 } := by
    unfold enhance_response_with_evidence
    rw [hsearch max_sources]
    simp
  refine ⟨hsearch k, ?_, ?_, ?_, ?_, ?_⟩ <;>
    (simp [henh, _calculate_dynamic_improvements, _assess_evidence_diversity, min_def] <;>
      norm_num)

unseal Rat.mul Rat.add Rat.sub Rat.inv in
/-- C4 counterexample: `dbMedOnly` holds no finance sources (its only
source is medical and its domain index has no finance entry), yet a
finance-domain retrieval falls back to all sources and returns the
medical source — not the empty list the claim asserts. -/
theorem c4_counterexample :
    dictGet dbMedOnly.domain_index "finance" = none ∧
    (∀ p ∈ dbMedOnly.sources, p.2.domain ≠ "finance") ∧
    search_sources constEncode negHalfSim dbMedOnly "diabetes treatment" "finance" 5
      = [medSrc] := by
  refine ⟨by decide, by decide, by decide⟩

/-- Witness for C4: the amended statement applied to the empty repository. -/
theorem c4_witness :
    search_sources constEncode negHalfSim dbEmpty "anything" "finance" 5 = [] ∧
    (enhance_response_with_evidence constEncode negHalfSim dbEmpty "resp" "anything" "finance"
      3).evidence_coverage = 0 ∧
    (enhance_response_with_evidence constEncode negHalfSim dbEmpty "resp" "anything" "finance"
      3).citation_quality_score = 0 ∧
    (_calculate_dynamic_improvements (enhance_response_with_evidence constEncode negHalfSim
      dbEmpty "resp" "anything" "finance" 3) "anything" "finance").faithfulness_improvement = 0 ∧
    (_calculate_dynamic_improvements (enhance_response_with_evidence constEncode negHalfSim
      dbEmpty "resp" "anything" "finance" 3) "anything" "finance").citation_accuracy_improvement = 0 ∧
    (_calculate_dynamic_improvements (enhance_response_with_evidence constEncode negHalfSim
      dbEmpty "resp" "anything" "finance" 3) "anything" "finance").factual_consistency_improvement = 0 :=
  c4_amended constEncode negHalfSim dbEmpty "resp" "anything" 5 3 rfl rfl

/-- C7 amended: the cache key depends only on the id multiset — any two
collections with the same ids in any insertion order produce the same
key — and rebuilding with a complete cached archive for the current key
reuses the cache verbatim without invoking the encoder.  Adding an id to
a collection always changes the joined sorted id string that is hashed to
form the key (so the key changes whenever the truncated MD5 digests of
the two distinct strings differ), with the single degenerate exception of
the empty-string id added to an empty collection, whose joined string is
also empty. -/
theorem c7_amended :
    (∀ ids1 ids2 : List String, ids1.Perm ids2 → cacheKey ids1 = cacheKey ids2) ∧
    (∀ {V : Type} (encode : String → V) (sources : List (String × EvidenceSource))
        (cache : String → Option (List (String × V))) (cached : List (String × V)),
      cache (cacheKey (sources.map Prod.fst)) = some cached →
      (∀ p ∈ sources, (dictGet cached p.1).isSome) →
      _compute_embeddings_with_cache encode sources cache
        = (sources.filterMap (fun p => (dictGet cached p.1).map (fun v => (p.1, v))), false)) ∧
    (∀ (ids : List String) (x : String), x ∉ ids → (x ≠ "" ∨ ids ≠ []) →
      cacheKeyInput (x :: ids) ≠ cacheKeyInput ids) ∧
    cacheKeyInput [""] = cacheKeyInput [] := by
  refine ⟨?_, ?_, ?_, rfl⟩
  · intro ids1 ids2 h
    unfold cacheKey cacheKeyInput
    rw [sortedIdsEq h]
  · intro V encode sources cache cached hcache hall
    simp only [_compute_embeddings_with_cache]
    rw [hcache]
    dsimp only
    have hlen : (sources.filterMap (fun p => (dictGet cached p.1).map
        (fun v => (p.1, v)))).length = sources.length := by
      apply filterMapLenAll
      intro p hp
      rcases Option.isSome_iff_exists.mp (hall p hp) with ⟨v, hv⟩
      simp [hv]
    rw [if_pos hlen]
  · intro ids x hx hne heq
    cases ids with
    | nil =>
      rcases hne with hne | hne
      · apply hne
        simpa [cacheKeyInput, sortedIds, List.insertionSort, List.orderedInsert,
          pyJoinStr] using heq
      · exact hne rfl
    | cons y t =>
      have hne1 : sortedIds (x :: y :: t) ≠ [] := by
        have hl := (sortedIdsPerm (x :: y :: t)).length_eq
        intro hh
        rw [hh] at hl
        simp at hl
      have hne2 : sortedIds (y :: t) ≠ [] := by
        have hl := (sortedIdsPerm (y :: t)).length_eq
        intro hh
        rw [hh] at hl
        simp at hl
      have h1 := pyJoinStrLen "|" (sortedIds (x :: y :: t)) hne1
      have h2 := pyJoinStrLen "|" (sortedIds (y :: t)) hne2
      have hs1 : ((sortedIds (x :: y :: t)).map String.length).sum
          = ((x :: y :: t).map String.length).sum :=
        ((sortedIdsPerm (x :: y :: t)).map String.length).sum_eq
      have hs2 : ((sortedIds (y :: t)).map String.length).sum
          = ((y :: t).map String.length).sum :=
        ((sortedIdsPerm (y :: t)).map String.length).sum_eq
      have hl1 : (sortedIds (x :: y :: t)).length = (x :: y :: t).length :=
        (sortedIdsPerm (x :: y :: t)).length_eq
      have hl2 : (sortedIds (y :: t)).length = (y :: t).length :=
        (sortedIdsPerm (y :: t)).length_eq
      have hlen := congrArg String.length heq
      unfold cacheKeyInput at hlen
      rw [h1, h2, hs1, hs2, hl1, hl2] at hlen
      have hsep : "|".length = 1 := rfl
      rw [hsep] at hlen
      simp only [List.map_cons, List.sum_cons, List.length_cons] at hlen
      omega

/-- C7 counterexample: removing the (legitimate) empty-string id from the
one-source collection leaves the joined sorted id string — and therefore
the derived cache key — unchanged, refuting that adding or removing any
id changes the key. -/
theorem c7_counterexample :
    cacheKey [""] = cacheKey [] ∧ ([""] : List String) ≠ [] :=
  ⟨rfl, by decide⟩

/-- Witness for C7: order-independence of the cache key at a concrete
two-id collection. -/
theorem c7_witness : cacheKey ["b", "a"] = cacheKey ["a", "b"] :=
  c7_amended.1 ["b", "a"] ["a", "b"] (List.Perm.swap "a" "b" [])

/-- Membership characterisation of the scored-candidate list: an entry
arises from a candidate id with an embedding and a source record, scored
by the boosted cosine similarity. -/
theorem scoredCandidatesMem {V : Type} (encode : String → V) (cosineSim : V → V → ℚ)
    (db : EvidenceDatabase V) (query : String) (source_ids : List String)
    {p : ℚ × EvidenceSource} :
    p ∈ scoredCandidates encode cosineSim db query source_ids ↔
      ∃ sid ∈ source_ids, ∃ e src,
        dictGet db.source_embeddings sid = some e ∧
        dictGet db.sources sid = some src ∧
        p = (appliedSimilarity db (cosineSim (encode query) e) sid, src) := by
  unfold scoredCandidates
  rw [List.mem_filterMap]
  constructor
  · rintro ⟨sid, hsid, hf⟩
    cases hembx : dictGet db.source_embeddings sid with
    | none => rw [hembx] at hf; cases hf
    | some e =>
      rw [hembx] at hf
      dsimp only at hf
      cases hsrcx : dictGet db.sources sid with
      | none => rw [hsrcx] at hf; cases hf
      | some src =>
        rw [hsrcx] at hf
        injection hf with hf
        exact ⟨sid, hsid, e, src, hembx, hsrcx, hf.symm⟩
  · rintro ⟨sid, hsid, e, src, he, hsrc, rfl⟩
    refine ⟨sid, hsid, ?_⟩
    rw [he]
    dsimp only
    rw [hsrc]
    rfl

/-- `filterMap` preserves freedom from duplicates when produced values
remember the argument that created them. -/
theorem filterMapNodupOfId {α β : Type} (f : α → Option β) (g : β → α)
    (hg : ∀ a b, f a = some b → g b = a) :
    ∀ l : List α, l.Nodup → (l.filterMap f).Nodup := by
  intro l
  induction l with
  | nil => intro _; simp
  | cons x t ih =>
    intro hnd
    rcases List.nodup_cons.mp hnd with ⟨hx, hndt⟩
    rw [List.filterMap_cons]
    cases hfx : f x with
    | none => exact ih hndt
    | some b =>
      apply List.nodup_cons.mpr
      refine ⟨?_, ih hndt⟩
      intro hbmem
      rcases List.mem_filterMap.mp hbmem with ⟨a, hat, hfa⟩
      have h1 := hg x b hfx
      have h2 := hg a b hfa
      have hax : a = x := h2.symm.trans h1
      rw [hax] at hat
      exact hx hat

/-- Distinct candidate ids yield a duplicate-free scored list (the stored
source of each entry carries the id that produced it). -/
theorem scoredCandidatesNodup {V : Type} (encode : String → V) (cosineSim : V → V → ℚ)
    (db : EvidenceDatabase V) (query : String) (source_ids : List String)
    (hwf : ∀ sid src, dictGet db.sources sid = some src → src.id = sid)
    (hnd : source_ids.Nodup) :
    (scoredCandidates encode cosineSim db query source_ids).Nodup := by
  unfold scoredCandidates
  apply filterMapNodupOfId _ (fun p => p.2.id) ?_ source_ids hnd
  intro a b hab
  cases hembx : dictGet db.source_embeddings a with
  | none => rw [hembx] at hab; cases hab
  | some e =>
    rw [hembx] at hab
    dsimp only at hab
    cases hsrcx : dictGet db.sources a with
    | none => rw [hsrcx] at hab; cases hab
    | some src =>
      rw [hsrcx] at hab
      injection hab with hab
      rw [← hab]
      exact hwf a src hsrcx

/-- C9: in semantic mode, when no scored candidate reaches the dynamic
threshold but at least one candidate has an embedding (and the result
bound is at least 1, per the contract `k` in 1..10), the search returns
the best `min 3 k` candidates by boosted similarity — a non-empty list —
and when no candidate has an embedding it returns the empty list rather
than an error. -/
theorem c9_fallback {V : Type} (encode : String → V) (cosineSim : V → V → ℚ)
    (db : EvidenceDatabase V) (query domain : String) (source_ids : List String)
    (max_results : Nat)
    (hwf : ∀ sid ∈ source_ids, (dictGet db.sources sid).isSome) :
    ((∀ sid ∈ source_ids, ∀ e, dictGet db.source_embeddings sid = some e →
        appliedSimilarity db (cosineSim (encode query) e) sid
          < _calculate_dynamic_similarity_threshold query domain) →
      (∃ sid ∈ source_ids, (dictGet db.source_embeddings sid).isSome) →
      1 ≤ max_results →
      _semantic_search encode cosineSim db query source_ids max_results domain
        = ((List.insertionSort scoredOrder
            (scoredCandidates encode cosineSim db query source_ids)).take
              (min 3 max_results)).map Prod.snd ∧
      _semantic_search encode cosineSim db query source_ids max_results domain ≠ []) ∧
    ((∀ sid ∈ source_ids, dictGet db.source_embeddings sid = none) →
      _semantic_search encode cosineSim db query source_ids max_results domain = []) := by
  constructor
  · intro hbelow hex hk
    have hallbelow : ∀ p ∈ scoredCandidates encode cosineSim db query source_ids,
        p.1 < _calculate_dynamic_similarity_threshold query domain := by
      intro p hp
      rcases (scoredCandidatesMem encode cosineSim db query source_ids).mp hp with
        ⟨sid, hsid, e, src, he, hsrc, rfl⟩
      exact hbelow sid hsid e he
    have hne : scoredCandidates encode cosineSim db query source_ids ≠ [] := by
      rcases hex with ⟨sid, hsid, hemb⟩
      rcases Option.isSome_iff_exists.mp hemb with ⟨e, he⟩
      rcases Option.isSome_iff_exists.mp (hwf sid hsid) with ⟨src, hsrc⟩
      apply List.ne_nil_of_mem
        (a := (appliedSimilarity db (cosineSim (encode query) e) sid, src))
      exact (scoredCandidatesMem encode cosineSim db query source_ids).mpr
        ⟨sid, hsid, e, src, he, hsrc, rfl⟩
    unfold _semantic_search
    dsimp only
    set scored := scoredCandidates encode cosineSim db query source_ids with hscored
    set sorted := List.insertionSort scoredOrder scored with hsortedeq
    set τ := _calculate_dynamic_similarity_threshold query domain with hτ
    have hsortmem : ∀ p ∈ sorted, p ∈ scored := fun p hp =>
      (List.perm_insertionSort scoredOrder scored).mem_iff.mp hp
    have hfilter : sorted.filter (fun p => decide (τ ≤ p.1)) = [] := by
      apply List.filter_eq_nil_iff.mpr
      intro p hp
      simp only [decide_eq_true_eq]
      exact not_le.mpr (hallbelow p (hsortmem p hp))
    have hsortne : sorted ≠ [] := by
      intro hh
      have hl := (List.perm_insertionSort scoredOrder scored).length_eq
      rw [← hsortedeq, hh] at hl
      exact hne (List.length_eq_zero.mp hl.symm)
    rw [hfilter]
    have hcond : ¬ ((([] : List (ℚ × EvidenceSource)).take max_results).map Prod.snd ≠ []) := by
      simp
    rw [if_neg hcond, if_pos hsortne]
    refine ⟨rfl, ?_⟩
    intro hh
    have htake := List.map_eq_nil_iff.mp hh
    rcases List.take_eq_nil_iff.mp htake with h0 | hnil
    · omega
    · exact hsortne hnil
  · intro hnone
    have hsc : scoredCandidates encode cosineSim db query source_ids = [] := by
      unfold scoredCandidates
      apply List.filterMap_eq_nil_iff.mpr
      intro sid hsid
      rw [hnone sid hsid]
    unfold _semantic_search
    rw [hsc]
    simp [List.insertionSort]

unseal Rat.mul Rat.add Rat.sub Rat.inv in
/-- Witness for C9: on `dbPair` every boosted similarity (−0.5 and −0.6)
is below the 0.2 threshold of the one-word general query, both candidates
have embeddings, and the fallback returns the non-empty best-3 list. -/
theorem c9_witness :
    _semantic_search constEncode negHalfSim dbPair "test" ["b", "c"] 5 "general"
      = ((List.insertionSort scoredOrder
          (scoredCandidates constEncode negHalfSim dbPair "test" ["b", "c"])).take
            (min 3 5)).map Prod.snd ∧
    _semantic_search constEncode negHalfSim dbPair "test" ["b", "c"] 5 "general" ≠ [] :=
  (c9_fallback constEncode negHalfSim dbPair "test" "general" ["b", "c"] 5 (by decide)).1
    (by
      intro sid hsid e he
      rcases List.mem_cons.mp hsid with rfl | hsid2
      · have he1 : e = 1 := by
          have : dictGet dbPair.source_embeddings "b" = some 1 := by decide
          rw [this] at he
          injection he with he
          exact he.symm
        rw [he1]
        decide
      · rcases List.mem_cons.mp hsid2 with rfl | hsid3
        · have he2 : e = 2 := by
            have : dictGet dbPair.source_embeddings "c" = some 2 := by decide
            rw [this] at he
            injection he with he
            exact he.symm
          rw [he2]
          decide
        · cases hsid3)
    ⟨"b", by decide, by decide⟩
    (by norm_num)

/-- A dict whose values each carry their own key reports consistent ids
on lookup. -/
theorem dictGetWf {β : Type} (d : List (String × β)) (f : β → String)
    (hall : ∀ p ∈ d, f p.2 = p.1) :
    ∀ k v, dictGet d k = some v → f v = k := by
  intro k v h
  unfold dictGet at h
  rcases Option.map_eq_some'.mp h with ⟨pair, hfind, hv⟩
  have h1 := List.find?_some hfind
  have h2 := List.mem_of_find?_eq_some hfind
  rw [← hv, hall pair h2]
  exact beq_iff_eq.mp h1

/-- C1 amended: with a shared raw cosine similarity `s`, the curated
source scores `1.2 × s` and the bulk source scores `s`; when `s` is
strictly positive and the bulk source appears in the returned list, the
curated source appears strictly before it.  (For `s ≤ 0` the multiplied
boost lowers or ties the curated score, see the counterexample.) -/
theorem c1_curated_boost {V : Type} (encode : String → V) (cosineSim : V → V → ℚ)
    (db : EvidenceDatabase V) (query domain : String) (source_ids : List String)
    (max_results : Nat) (cur bulk : String) (curSrc bulkSrc : EvidenceSource)
    (ec eb : V) (s : ℚ)
    (hwf : ∀ sid src, dictGet db.sources sid = some src → src.id = sid)
    (hnd : source_ids.Nodup)
    (hcurm : cur ∈ source_ids) (hbulkm : bulk ∈ source_ids)
    (hcur : cur ∈ db.curated_source_ids) (hbulk : bulk ∉ db.curated_source_ids)
    (hec : dictGet db.source_embeddings cur = some ec)
    (heb : dictGet db.source_embeddings bulk = some eb)
    (hsc : cosineSim (encode query) ec = s)
    (hsb : cosineSim (encode query) eb = s)
    (hs : 0 < s)
    (hcs : dictGet db.sources cur = some curSrc)
    (hbs : dictGet db.sources bulk = some bulkSrc) :
    appliedSimilarity db s cur = s * (12/10) ∧
    appliedSimilarity db s bulk = s ∧
    (bulkSrc ∈ _semantic_search encode cosineSim db query source_ids max_results domain →
      [curSrc, bulkSrc].Sublist
        (_semantic_search encode cosineSim db query source_ids max_results domain)) := by
  have hidbulk : bulkSrc.id = bulk := hwf bulk bulkSrc hbs
  have happc : appliedSimilarity db s cur = s * (12/10) := by
    simp [appliedSimilarity, hcur]
  have happb : appliedSimilarity db s bulk = s := by
    simp [appliedSimilarity, hbulk]
  refine ⟨happc, happb, ?_⟩
  intro hin
  have hchar : ∀ p ∈ scoredCandidates encode cosineSim db query source_ids,
      p.2 = bulkSrc → p = (appliedSimilarity db s bulk, bulkSrc) := by
    intro p hp hsnd
    rcases (scoredCandidatesMem encode cosineSim db query source_ids).mp hp with
      ⟨sid, hsid, e, src, he, hsrc, rfl⟩
    dsimp only at hsnd
    subst hsnd
    have hsid2 : sid = bulk := (hwf sid src hsrc).symm.trans hidbulk
    subst hsid2
    have hee : e = eb := by
      have h2 := he.symm.trans heb
      injection h2
    subst hee
    rw [hsb]
  have hpc : (appliedSimilarity db s cur, curSrc)
      ∈ scoredCandidates encode cosineSim db query source_ids :=
    (scoredCandidatesMem encode cosineSim db query source_ids).mpr
      ⟨cur, hcurm, ec, curSrc, hec, hcs, by rw [hsc]⟩
  have hndsc := scoredCandidatesNodup encode cosineSim db query source_ids hwf hnd
  have hlt : ¬ scoredOrder (appliedSimilarity db s bulk, bulkSrc)
      (appliedSimilarity db s cur, curSrc) := by
    simp only [scoredOrder]
    rw [happb, happc]
    exact not_le.mpr (by linarith)
  have core : ∀ (L : List (ℚ × EvidenceSource)) (n : Nat),
      L.Pairwise scoredOrder → L.Nodup →
      (appliedSimilarity db s cur, curSrc) ∈ L →
      (∀ p ∈ L, p ∈ scoredCandidates encode cosineSim db query source_ids) →
      bulkSrc ∈ (L.take n).map Prod.snd →
      [curSrc, bulkSrc].Sublist ((L.take n).map Prod.snd) := by
    intro L n hpw hndL hpcL hsubL hmem
    rcases List.mem_map.mp hmem with ⟨pb, hpbtake, hpbsnd⟩
    have hpbL : pb ∈ L := (List.take_sublist n L).subset hpbtake
    have hpbeq := hchar pb (hsubL pb hpbL) hpbsnd
    rw [hpbeq] at hpbtake hpbL
    have hbefore := pairBefore
      (show ∀ x : ℚ × EvidenceSource, scoredOrder x x from fun x => le_refl x.1)
      hpw hpcL hpbL hlt
    have htake := sublistPairTake hbefore hndL hpbtake
    have hmap := htake.map Prod.snd
    simpa using hmap
  unfold _semantic_search at hin ⊢
  dsimp only at hin ⊢
  set scored := scoredCandidates encode cosineSim db query source_ids with hscored
  set sorted := List.insertionSort scoredOrder scored with hsortedeq
  set τ := _calculate_dynamic_similarity_threshold query domain with hτ
  have hsortPW : sorted.Pairwise scoredOrder := List.sorted_insertionSort scoredOrder scored
  have hsortND : sorted.Nodup := (List.perm_insertionSort scoredOrder scored).symm.nodup hndsc
  have hsortSub : ∀ p ∈ sorted, p ∈ scored := fun p hp =>
    (List.perm_insertionSort scoredOrder scored).mem_iff.mp hp
  have hpcSorted : (appliedSimilarity db s cur, curSrc) ∈ sorted :=
    (List.perm_insertionSort scoredOrder scored).mem_iff.mpr hpc
  by_cases htop :
      ((sorted.filter (fun p => decide (τ ≤ p.1))).take max_results).map Prod.snd ≠ []
  · rw [if_pos htop] at hin ⊢
    rcases List.mem_map.mp hin with ⟨pb, hpbtake, hpbsnd⟩
    have hpbF : pb ∈ sorted.filter (fun p => decide (τ ≤ p.1)) :=
      (List.take_sublist _ _).subset hpbtake
    rcases List.mem_filter.mp hpbF with ⟨hpbSorted, hpbPred⟩
    have hpbeq := hchar pb (hsortSub pb hpbSorted) hpbsnd
    have hτs : τ ≤ s := by
      rw [hpbeq] at hpbPred
      simp only [decide_eq_true_eq] at hpbPred
      rw [happb] at hpbPred
      exact hpbPred
    have hpcF : (appliedSimilarity db s cur, curSrc)
        ∈ sorted.filter (fun p => decide (τ ≤ p.1)) := by
      apply List.mem_filter.mpr
      refine ⟨hpcSorted, ?_⟩
      simp only [decide_eq_true_eq]
      rw [happc]
      linarith
    exact core _ max_results (hsortPW.filter _) (hsortND.filter _) hpcF
      (fun p hp => hsortSub p ((List.filter_sublist sorted).subset hp)) hin
  · rw [if_neg htop] at hin ⊢
    by_cases hsne : sorted ≠ []
    · rw [if_pos hsne] at hin ⊢
      exact core sorted (min 3 max_results) hsortPW hsortND hpcSorted hsortSub hin
    · rw [if_neg hsne] at hin
      cases hin

unseal Rat.mul Rat.add Rat.sub Rat.inv in
/-- C1 counterexample: both sources have raw cosine similarity −1/2 to
the query; the 1.2 boost makes the curated score −0.6 < −0.5, so the
returned ordering ranks the bulk source first — the curated source does
not rank strictly higher. -/
theorem c1_counterexample :
    negHalfSim (constEncode "test") 1 = negHalfSim (constEncode "test") 2 ∧
    "c" ∈ dbPair.curated_source_ids ∧
    "b" ∉ dbPair.curated_source_ids ∧
    _semantic_search constEncode negHalfSim dbPair "test" ["b", "c"] 5 "general"
      = [bulkSrc, curatedSrc] ∧
    ¬ [curatedSrc, bulkSrc].Sublist
        (_semantic_search constEncode negHalfSim dbPair "test" ["b", "c"] 5 "general") := by
  refine ⟨by decide, by decide, by decide, by decide, by decide⟩

unseal Rat.mul Rat.add Rat.sub Rat.inv in
/-- Witness for C1: with shared raw similarity 1/2 (positive), the
curated source scores 0.6, the bulk source 0.5, and the curated source
precedes the bulk source in the returned list. -/
theorem c1_witness :
    appliedSimilarity dbPair ((1:ℚ)/2) "c" = (1/2) * (12/10) ∧
    appliedSimilarity dbPair ((1:ℚ)/2) "b" = 1/2 ∧
    [curatedSrc, bulkSrc].Sublist
      (_semantic_search constEncode posHalfSim dbPair "test" ["b", "c"] 5 "general") := by
  have h := c1_curated_boost constEncode posHalfSim dbPair "test" "general" ["b", "c"] 5
    "c" "b" curatedSrc bulkSrc (2 : Nat) (1 : Nat) (1/2)
    (dictGetWf dbPair.sources EvidenceSource.id (by decide))
    (by decide) (by decide) (by decide) (by decide) (by decide)
    (by decide) (by decide) rfl rfl (by norm_num) (by decide) (by decide)
  exact ⟨h.1, h.2.1, h.2.2 (by decide)⟩

unseal Rat.mul Rat.add Rat.sub Rat.inv in
/-- Witness for C3: the type-independent quality formula instantiated at
a concrete two-citation list. -/
theorem c3_witness :
    _calculate_dynamic_citation_quality (generate_citations [srcAcademic, srcClinical])
      = min (((generate_citations [srcAcademic, srcClinical]).map
            Citation.relevance_score).sum
          / ((generate_citations [srcAcademic, srcClinical]).length : ℚ)
          + 1/8
          + (if (generate_citations [srcAcademic, srcClinical]).length = 1 then 0
             else if (generate_citations [srcAcademic, srcClinical]).length = 2 then 10/100
             else if (generate_citations [srcAcademic, srcClinical]).length = 3 then 20/100
             else 25/100)) 1 :=
  c3_quality_ignores_types.1 (generate_citations [srcAcademic, srcClinical]) (by decide)
